import Mathlib

/-!
Verification of the tracing-framework graphics replay core
(`wtf.replay.graphics`): a shallow embedding of the WebGL state snapshot
(`WebGLState`), the off-screen surface (`IntermediateBuffer`), the shader
program variant registry (`Program.syncPrograms_`), the skip-calls
visualizer state hash, the overdraw ratio computations, ReplayFrame timing
and the FrameTimeVisualizer event handlers, with theorems about the
properties stated in the specification.

The rendering context is modelled as a record of the context state the
embedded code reads and writes; each `gl.*` call used by the embedded
functions becomes a small state transformer on that record.
-/

namespace WTFReplay

/-! ### goog.webgl enum constants used by the embedded code -/

def BLEND : Nat := 3042
def CULL_FACE : Nat := 2884
def DEPTH_TEST : Nat := 2929
def DITHER : Nat := 3024
def POLYGON_OFFSET_FILL : Nat := 32823
def SCISSOR_TEST : Nat := 3089
def STENCIL_TEST : Nat := 2960
def TEXTURE0 : Nat := 33984

/-! ### The rendering-context state touched by the embedded code

`toggles` maps a capability enum (gl.enable/gl.disable) to its state;
`texBinding2D`/`texBindingCubeMap` map a texture unit index to the bound
texture handle (`none` = null binding); `texStorage`/`rbStorage` record the
allocated storage dimensions of textures and renderbuffers;
`fbColorCleared`/`fbDepthCleared` record, per framebuffer binding, whether
its color attachment was last uniformly cleared (and to which color) and
whether its depth attachment was cleared. -/

@[ext]
structure GLContext where
  toggles : Nat → Bool
  activeTexture : Nat
  texBinding2D : Nat → Option Nat
  texBindingCubeMap : Nat → Option Nat
  maxTextureUnits : Nat
  framebufferBinding : Option Nat
  renderbufferBinding : Option Nat
  texStorage : Nat → Option (Nat × Nat)
  rbStorage : Nat → Option (Nat × Nat)
  clearColorVal : ℚ × ℚ × ℚ × ℚ
  fbColorCleared : Option Nat → Option (ℚ × ℚ × ℚ × ℚ)
  fbDepthCleared : Option Nat → Bool

/-- Models `gl.enable(cap)`. -/
def GLContext.enable (g : GLContext) (cap : Nat) : GLContext :=
  { g with toggles := Function.update g.toggles cap true }

/-- Models `gl.disable(cap)`. -/
def GLContext.disable (g : GLContext) (cap : Nat) : GLContext :=
  { g with toggles := Function.update g.toggles cap false }

/-- Models `gl.activeTexture(e)` where `e` is `TEXTURE0 + unit`. -/
def GLContext.setActiveTexture (g : GLContext) (e : Nat) : GLContext :=
  { g with activeTexture := e }

/-- The texture unit index selected by the current active texture enum. -/
def GLContext.boundTextureUnit (g : GLContext) : Nat :=
  g.activeTexture - TEXTURE0

/-- Models `gl.getParameter(TEXTURE_BINDING_2D)` (binding of the active unit). -/
def GLContext.getTexBinding2D (g : GLContext) : Option Nat :=
  g.texBinding2D g.boundTextureUnit

/-- Models `gl.getParameter(TEXTURE_BINDING_CUBE_MAP)`. -/
def GLContext.getTexBindingCubeMap (g : GLContext) : Option Nat :=
  g.texBindingCubeMap g.boundTextureUnit

/-- Models `gl.bindTexture(TEXTURE_2D, t)` (binds on the active unit). -/
def GLContext.bindTexture2D (g : GLContext) (t : Option Nat) : GLContext :=
  { g with texBinding2D := Function.update g.texBinding2D g.boundTextureUnit t }

/-- Models `gl.bindTexture(TEXTURE_CUBE_MAP, t)`. -/
def GLContext.bindTextureCubeMap (g : GLContext) (t : Option Nat) : GLContext :=
  { g with texBindingCubeMap := Function.update g.texBindingCubeMap g.boundTextureUnit t }

/-- Models `gl.bindFramebuffer(FRAMEBUFFER, f)` (`none` = null = default). -/
def GLContext.bindFramebuffer (g : GLContext) (f : Option Nat) : GLContext :=
  { g with framebufferBinding := f }

/-- Models `gl.bindRenderbuffer(RENDERBUFFER, r)`. -/
def GLContext.bindRenderbuffer (g : GLContext) (r : Option Nat) : GLContext :=
  { g with renderbufferBinding := r }

/-- Models `gl.texImage2D(TEXTURE_2D, 0, RGBA, w, h, 0, RGBA, UNSIGNED_BYTE, null)`:
(re)allocates storage of the texture bound on the active unit. -/
def GLContext.texImage2D (g : GLContext) (w h : Nat) : GLContext :=
  match g.getTexBinding2D with
  | some t => { g with texStorage := Function.update g.texStorage t (some (w, h)) }
  | none => g

/-- Models `gl.renderbufferStorage(RENDERBUFFER, DEPTH_COMPONENT16, w, h)`. -/
def GLContext.renderbufferStorage (g : GLContext) (w h : Nat) : GLContext :=
  match g.renderbufferBinding with
  | some r => { g with rbStorage := Function.update g.rbStorage r (some (w, h)) }
  | none => g

/-- Models `gl.clearColor(r, g, b, a)`. -/
def GLContext.clearColor (g : GLContext) (c : ℚ × ℚ × ℚ × ℚ) : GLContext :=
  { g with clearColorVal := c }

/-- Models `gl.clear(COLOR_BUFFER_BIT | DEPTH_BUFFER_BIT)` on the currently
bound framebuffer. -/
def GLContext.clearColorDepth (g : GLContext) : GLContext :=
  { g with
    fbColorCleared := Function.update g.fbColorCleared g.framebufferBinding (some g.clearColorVal)
    fbDepthCleared := Function.update g.fbDepthCleared g.framebufferBinding true }

/-! ### wtf.replay.graphics.WebGLState -/

/-- The `toggleStates_` list from the `WebGLState` constructor: all WebGL
state enums backed up via gl.enable/gl.disable. -/
def toggleStatesList : List Nat :=
  [BLEND, CULL_FACE, DEPTH_TEST, DITHER, POLYGON_OFFSET_FILL, SCISSOR_TEST, STENCIL_TEST]

/-- State of a `wtf.replay.graphics.WebGLState` instance. -/
structure WebGLState where
  backupStored : Bool
  savedToggleStates : List (Nat × Bool)
  savedActiveTexture : Option Nat
  savedTextureBinding2Ds : Nat → Option Nat
  savedTextureBindingCubeMaps : Nat → Option Nat

/-- The `WebGLState` constructor: no backup stored, empty saved maps. -/
def WebGLState.create : WebGLState :=
  { backupStored := false
    savedToggleStates := []
    savedActiveTexture := none
    savedTextureBinding2Ds := fun _ => none
    savedTextureBindingCubeMaps := fun _ => none }

/-- One iteration of the texture-unit scan in `WebGLState.prototype.backup`:
`gl.activeTexture(TEXTURE0 + i)` then read both bindings of that unit. -/
def backupScanStep (acc : GLContext × (Nat → Option Nat) × (Nat → Option Nat)) (i : Nat) :
    GLContext × (Nat → Option Nat) × (Nat → Option Nat) :=
  let g := acc.1.setActiveTexture (TEXTURE0 + i)
  (g, Function.update acc.2.1 i g.getTexBinding2D,
      Function.update acc.2.2 i g.getTexBindingCubeMap)

/-- `wtf.replay.graphics.WebGLState.prototype.backup`. -/
def WebGLState.backup (ws : WebGLState) (gl : GLContext) : WebGLState × GLContext :=
  let savedToggles := toggleStatesList.map fun t => (t, gl.toggles t)
  let savedActive := gl.activeTexture
  let scan := (List.range gl.maxTextureUnits).foldl backupScanStep
      (gl, ws.savedTextureBinding2Ds, ws.savedTextureBindingCubeMaps)
  let gl2 := scan.1.setActiveTexture savedActive
  ({ backupStored := true
     savedToggleStates := savedToggles
     savedActiveTexture := some savedActive
     savedTextureBinding2Ds := scan.2.1
     savedTextureBindingCubeMaps := scan.2.2 }, gl2)

/-- One iteration of the toggle loop in `WebGLState.prototype.restore`:
`saved ? gl.enable(state) : gl.disable(state)`. -/
def restoreToggleStep (g : GLContext) (p : Nat × Bool) : GLContext :=
  if p.2 then g.enable p.1 else g.disable p.1

/-- One iteration of the texture-unit loop in `WebGLState.prototype.restore`. -/
def restoreTexStep (ws : WebGLState) (g : GLContext) (i : Nat) : GLContext :=
  (((g.setActiveTexture (TEXTURE0 + i)).bindTexture2D
      (ws.savedTextureBinding2Ds i)).bindTextureCubeMap
      (ws.savedTextureBindingCubeMaps i))

/-- `wtf.replay.graphics.WebGLState.prototype.restore`. The leading
`goog.asserts.assert(this.backupStored_)` is modelled by returning `none`
(assertion failure) when no backup is stored. -/
def WebGLState.restore (ws : WebGLState) (gl : GLContext) : Option GLContext :=
  if ws.backupStored then
    let gl1 := ws.savedToggleStates.foldl restoreToggleStep gl
    let gl2 := (List.range gl1.maxTextureUnits).foldl (restoreTexStep ws) gl1
    some (gl2.setActiveTexture (ws.savedActiveTexture.getD 0))
  else none

/-- The state tracked by `WebGLState`: the seven toggle flags, the active
texture unit, and both texture bindings of every unit below the
implementation's texture-unit limit. -/
def trackedObservations (gl : GLContext) :
    List Bool × Nat × List (Option Nat) × List (Option Nat) :=
  (toggleStatesList.map gl.toggles, gl.activeTexture,
   (List.range gl.maxTextureUnits).map gl.texBinding2D,
   (List.range gl.maxTextureUnits).map gl.texBindingCubeMap)

/-! ### wtf.replay.graphics.IntermediateBuffer -/

/-- State of a `wtf.replay.graphics.IntermediateBuffer`: dimensions, the
resize guard, its private `WebGLState`, and the handles of the GL objects it
owns (created by `initialize_`). -/
structure IntermediateBuffer where
  width : Nat
  height : Nat
  webGLState : WebGLState
  resizeDisabled : Bool
  framebuffer : Nat
  rtt : Nat
  renderbuffer : Nat
  drawTextureProgram : Nat
  squareVertexPositionBuffer : Nat
  squareTextureCoordBuffer : Nat

/-- `IntermediateBuffer.prototype.disableResize`. -/
def IntermediateBuffer.disableResize (ib : IntermediateBuffer) : IntermediateBuffer :=
  { ib with resizeDisabled := true }

/-- `IntermediateBuffer.prototype.enableResize`. -/
def IntermediateBuffer.enableResize (ib : IntermediateBuffer) : IntermediateBuffer :=
  { ib with resizeDisabled := false }

/-- `IntermediateBuffer.prototype.bindFramebuffer`. -/
def IntermediateBuffer.bindFramebuffer (ib : IntermediateBuffer) (gl : GLContext) : GLContext :=
  gl.bindFramebuffer (some ib.framebuffer)

/-- `IntermediateBuffer.prototype.clear`: backup, bind the internal
framebuffer, set the clear color to transparent black, clear color and depth,
then restore the snapshot-tracked state. `none` models an assertion failure
inside `restore` (unreachable here). -/
def IntermediateBuffer.clear (ib : IntermediateBuffer) (gl : GLContext) :
    Option (IntermediateBuffer × GLContext) :=
  let backed := ib.webGLState.backup gl
  let gl2 := ib.bindFramebuffer backed.2
  let gl3 := gl2.clearColor (0, 0, 0, 0)
  let gl4 := gl3.clearColorDepth
  (backed.1.restore gl4).map fun gl5 => ({ ib with webGLState := backed.1 }, gl5)

/-- `IntermediateBuffer.prototype.resize`: a guarded no-op when resizing is
disabled or the dimensions are unchanged; otherwise backup, reallocate the
render texture and the depth renderbuffer storage in place, and restore. -/
def IntermediateBuffer.resize (ib : IntermediateBuffer) (gl : GLContext) (width height : Nat) :
    Option (IntermediateBuffer × GLContext) :=
  if ib.resizeDisabled ∨ (ib.width = width ∧ ib.height = height) then
    some (ib, gl)
  else
    let backed := ib.webGLState.backup gl
    let ib2 := { ib with width := width, height := height, webGLState := backed.1 }
    let gl2 := backed.2.bindTexture2D (some ib.rtt)
    let gl3 := gl2.texImage2D width height
    let gl4 := gl3.bindRenderbuffer (some ib.renderbuffer)
    let gl5 := gl4.renderbufferStorage width height
    (backed.1.restore gl5).map fun gl6 => (ib2, gl6)

/-! ### Decimal rendering of numbers (JS `Array.join` / number-to-string) -/

/-- A decimal digit character. -/
def digitChar (k : Nat) : Char :=
  if k = 0 then '0' else if k = 1 then '1' else if k = 2 then '2'
  else if k = 3 then '3' else if k = 4 then '4' else if k = 5 then '5'
  else if k = 6 then '6' else if k = 7 then '7' else if k = 8 then '8' else '9'

/-- Fuel-indexed decimal digit expansion (most significant digit first). -/
def natDecimalCharsCore : Nat → Nat → List Char
  | 0, _ => []
  | fuel + 1, n =>
    if n < 10 then [digitChar n]
    else natDecimalCharsCore fuel (n / 10) ++ [digitChar (n % 10)]

/-- The decimal digit string of a natural number, as JavaScript renders a
nonnegative integer. -/
def natDecimalChars (n : Nat) : List Char :=
  natDecimalCharsCore (n + 1) n

/-- Reads a decimal digit string back into a natural number. -/
def ofDecimalChars (l : List Char) : Nat :=
  l.foldl (fun a c => 10 * a + (c.toNat - 48)) 0

/-- JavaScript number-to-string for integers (used by `'Frame #' + number`). -/
def intToString (i : Int) : String :=
  (if i < 0 then "-" else "") ++ String.mk (natDecimalChars i.natAbs)

/-- `Array.prototype.join(',')` at the level of character lists. -/
def joinComma : List (List Char) → List Char
  | [] => []
  | [x] => x
  | x :: xs => x ++ ',' :: joinComma xs

/-! ### wtf.replay.graphics.SkipCallsVisualizer -/

/-- The playback-affecting state of a `SkipCallsVisualizer`: the inherited
`active` flag, the latest used program handle, and the sparse boolean array
`skippedProgramHandles_`. -/
structure SkipCallsVisualizer where
  active : Bool
  latestProgramHandle : Nat
  skippedProgramHandles : List Bool

/-- The indices pushed by the loop in `getStateHash`: every index of
`skippedProgramHandles_` holding `true`, in increasing order. -/
def skippedIndices (v : SkipCallsVisualizer) : List Nat :=
  (List.range v.skippedProgramHandles.length).filter
    fun i => v.skippedProgramHandles.getD i false

/-- `SkipCallsVisualizer.prototype.getStateHash`: the empty string when the
visualizer is not active, otherwise the comma-joined list of skipped
program handles. -/
def SkipCallsVisualizer.getStateHash (v : SkipCallsVisualizer) : String :=
  if !v.active then ""
  else String.mk (joinComma ((skippedIndices v).map natDecimalChars))

/-- `SkipCallsVisualizer.prototype.handleDrawCall_` (final revision). -/
def SkipCallsVisualizer.handleDrawCall (v : SkipCallsVisualizer) : Bool :=
  v.skippedProgramHandles.getD v.latestProgramHandle false

/-! ### wtf.replay.graphics.Program — uniform sync (syncPrograms_) -/

def BOOL : Nat := 35670
def BOOL_VEC2 : Nat := 35671
def BOOL_VEC3 : Nat := 35672
def BOOL_VEC4 : Nat := 35673
def INT : Nat := 5124
def INT_VEC2 : Nat := 35667
def INT_VEC3 : Nat := 35668
def INT_VEC4 : Nat := 35669
def FLOAT : Nat := 5126
def FLOAT_VEC2 : Nat := 35664
def FLOAT_VEC3 : Nat := 35665
def FLOAT_VEC4 : Nat := 35666
def FLOAT_MAT2 : Nat := 35674
def FLOAT_MAT3 : Nat := 35675
def FLOAT_MAT4 : Nat := 35676
def SAMPLER_2D : Nat := 35678
def SAMPLER_CUBE : Nat := 35680

/-- The `gl.uniform*` setters used by the `switch` in `syncPrograms_`. -/
inductive UniformSetter where
  | uniform1i
  | uniform2iv
  | uniform3iv
  | uniform4iv
  | uniform1f
  | uniform2fv
  | uniform3fv
  | uniform4fv
  | uniformMatrix2fv
  | uniformMatrix3fv
  | uniformMatrix4fv
deriving DecidableEq

/-- The `switch (uniformInfo.type)` of `Program.prototype.syncPrograms_`
(final revision): the setter used for each recognized GLSL uniform type;
`none` models the `default: goog.asserts.fail('Unsupported uniform type.')`
branch. -/
def syncUniformSetter (t : Nat) : Option UniformSetter :=
  if t = BOOL then some .uniform1i
  else if t = BOOL_VEC2 then some .uniform2iv
  else if t = BOOL_VEC3 then some .uniform3iv
  else if t = INT then some .uniform1i
  else if t = INT_VEC2 then some .uniform2iv
  else if t = INT_VEC3 then some .uniform3iv
  else if t = INT_VEC4 then some .uniform4iv
  else if t = FLOAT then some .uniform1f
  else if t = FLOAT_VEC2 then some .uniform2fv
  else if t = FLOAT_VEC3 then some .uniform3fv
  else if t = FLOAT_VEC4 then some .uniform4fv
  else if t = FLOAT_MAT2 then some .uniformMatrix2fv
  else if t = FLOAT_MAT3 then some .uniformMatrix3fv
  else if t = FLOAT_MAT4 then some .uniformMatrix4fv
  else if t = SAMPLER_2D then some .uniform1i
  else if t = SAMPLER_CUBE then some .uniform1i
  else none

/-- The GLSL uniform types the `switch` in `syncPrograms_` recognizes, in
source order. -/
def supportedUniformTypes : List Nat :=
  [BOOL, BOOL_VEC2, BOOL_VEC3, INT, INT_VEC2, INT_VEC3, INT_VEC4,
   FLOAT, FLOAT_VEC2, FLOAT_VEC3, FLOAT_VEC4,
   FLOAT_MAT2, FLOAT_MAT3, FLOAT_MAT4, SAMPLER_2D, SAMPLER_CUBE]

/-- The uniform-sync loop of `syncPrograms_` over the types of the original
program's active uniforms: applies the type-appropriate setter to each, and
aborts with an assertion failure (`none`) at the first unrecognized type. -/
def syncUniforms : List Nat → Option (List UniformSetter)
  | [] => some []
  | t :: ts =>
    match syncUniformSetter t, syncUniforms ts with
    | some s, some ss => some (s :: ss)
    | _, _ => none

/-! ### Overdraw ratio reporting -/

/-- The `stats` object returned by `OverdrawSurface.calculateOverdraw`. -/
structure OverdrawStats where
  numOverdraw : ℚ
  numAffected : ℚ
  numPixels : ℚ

/-- The overdraw amount computed by `HighlightVisualizer.prototype.trigger`
(skipcallsvisualizer.js): guarded division by the number of affected pixels,
exactly 0 when `stats.numAffected < 0.001`. -/
def highlightTriggerOverdrawAmount (stats : OverdrawStats) : ℚ :=
  if stats.numAffected < 1 / 1000 then 0
  else stats.numOverdraw / stats.numAffected

/-- The overdraw amount computed by `Overdraw.prototype.trigger` (the
`wtf.replay.graphics.Overdraw` revision): unguarded division by the total
pixel count. -/
def overdrawTriggerAmount (stats : OverdrawStats) : ℚ :=
  stats.numOverdraw / stats.numPixels

/-! ### JavaScript number semantics needed by ReplayFrame -/

/-- A JavaScript number as far as the embedded code can observe it: a finite
(rational) value, NaN, or a signed infinity. -/
inductive JSNumber where
  | num (val : ℚ)
  | nan
  | posInf
  | negInf
deriving DecidableEq

/-- IEEE-754 division of finite values as JavaScript performs it: `0/0` is
NaN and `x/0` is a signed infinity for `x ≠ 0`. -/
def jsDiv (a b : ℚ) : JSNumber :=
  if b = 0 then
    if a = 0 then .nan
    else if 0 < a then .posInf
    else .negInf
  else .num (a / b)

/-- Rendering of `q.toFixed(2)` for a finite value, with exact rational
rounding standing in for binary64 rounding. -/
def renderFixed2 (q : ℚ) : String :=
  let cents : Nat := (Int.floor (|q| * 100 + 1 / 2)).toNat
  (if q < 0 then "-" else "") ++ String.mk (natDecimalChars (cents / 100)) ++ "." ++
    String.mk [digitChar (cents % 100 / 10), digitChar (cents % 10)]

/-- `Number.prototype.toFixed(2)` on a JavaScript number. -/
def jsToFixed2 : JSNumber → String
  | .num q => renderFixed2 q
  | .nan => "NaN"
  | .posInf => "Infinity"
  | .negInf => "-Infinity"

/-! ### wtf.replay.graphics.ReplayFrame -/

/-- State of a `wtf.replay.graphics.ReplayFrame`. Times are rationals
standing for the millisecond values returned by `wtf.now()`. -/
structure ReplayFrame where
  number : Int
  startTimes : List ℚ
  stopTimes : List ℚ
  durations : List ℚ
  totalDuration : ℚ
  valid : Bool
  latestStartTime : ℚ
  latestStopTime : ℚ
deriving DecidableEq

/-- The `ReplayFrame` constructor. -/
def ReplayFrame.create (number : Int) : ReplayFrame :=
  { number := number
    startTimes := []
    stopTimes := []
    durations := []
    totalDuration := 0
    valid := false
    latestStartTime := 0
    latestStopTime := 0 }

/-- `ReplayFrame.prototype.startTiming`; `now` is the value of `wtf.now()`. -/
def ReplayFrame.startTiming (f : ReplayFrame) (now : ℚ) : ReplayFrame :=
  { f with latestStartTime := now, valid := true }

/-- `ReplayFrame.prototype.stopTiming`: a no-op unless the latest timing is
valid; otherwise appends one start, stop and duration entry and accumulates
the total. -/
def ReplayFrame.stopTiming (f : ReplayFrame) (now : ℚ) : ReplayFrame :=
  if f.valid then
    { f with
      latestStopTime := now
      startTimes := f.startTimes ++ [f.latestStartTime]
      stopTimes := f.stopTimes ++ [now]
      durations := f.durations ++ [now - f.latestStartTime]
      totalDuration := f.totalDuration + (now - f.latestStartTime)
      valid := false }
  else f

/-- `ReplayFrame.prototype.cancelTiming`. -/
def ReplayFrame.cancelTiming (f : ReplayFrame) : ReplayFrame :=
  { f with valid := false }

/-- `ReplayFrame.prototype.getAverageDuration`: unguarded division
`totalDuration_ / durations_.length`. -/
def ReplayFrame.getAverageDuration (f : ReplayFrame) : JSNumber :=
  jsDiv f.totalDuration (f.durations.length : ℚ)

/-- `ReplayFrame.prototype.getTooltip`. -/
def ReplayFrame.getTooltip (f : ReplayFrame) : String :=
  let tooltip := "Frame #" ++ intToString f.number ++ "\n"
  if 0 < f.durations.length then
    tooltip ++ "Average time: " ++ jsToFixed2 f.getAverageDuration ++ "ms\n" ++
      "All times:\n" ++
      String.join (f.durations.map fun d => "  " ++ jsToFixed2 (JSNumber.num d) ++ "ms\n")
  else tooltip

/-- The calls a client can make on one `ReplayFrame`, with the `wtf.now()`
value observed during the call. -/
inductive FrameOp where
  | start (now : ℚ)
  | stop (now : ℚ)
  | cancel

/-- Dispatch of one call on a `ReplayFrame`. -/
def ReplayFrame.applyOp (f : ReplayFrame) : FrameOp → ReplayFrame
  | .start t => f.startTiming t
  | .stop t => f.stopTiming t
  | .cancel => f.cancelTiming

/-- The `ReplayFrame` bookkeeping invariant: the three lists run in lockstep,
each duration is the difference of its stop/start pair, and the stored total
is the sum of the durations. -/
def TimingInv (f : ReplayFrame) : Prop :=
  f.startTimes.length = f.stopTimes.length ∧
  f.durations.length = f.startTimes.length ∧
  f.durations = List.zipWith (fun b a => b - a) f.stopTimes f.startTimes ∧
  f.totalDuration = f.durations.sum

/-! ### wtf.replay.graphics.FrameTimeVisualizer (final revision) -/

/-- State of a `FrameTimeVisualizer`: the latest step index (initially −1),
the latest experiment hash, the vestigial `frames_` array the accessors
read, and the `experiments_` collection keyed by visualizer state hash in
which frames are actually recorded. -/
structure FrameTimeVisualizer where
  latestStepIndex : Int
  latestExperimentHash : String
  frames : List (List ReplayFrame)
  experiments : String → Int → Option ReplayFrame

/-- The `FrameTimeVisualizer` constructor; `initialHash` is
`playback.getVisualizerStateHash()`. -/
def FrameTimeVisualizer.create (initialHash : String) : FrameTimeVisualizer :=
  { latestStepIndex := -1
    latestExperimentHash := initialHash
    frames := []
    experiments := fun _ _ => none }

/-- `FrameTimeVisualizer.prototype.getFrames`:
`this.frames_[experimentId] || []`. -/
def FrameTimeVisualizer.getFrames (v : FrameTimeVisualizer) (experimentId : Nat) :
    List ReplayFrame :=
  v.frames.getD experimentId []

/-- `FrameTimeVisualizer.prototype.getFrame`: `null` (here `none`) when
absent. -/
def FrameTimeVisualizer.getFrame (v : FrameTimeVisualizer) (experimentId : Nat)
    (number : Nat) : Option ReplayFrame :=
  (v.frames.getD experimentId []).get? number

/-- Stores `f` at `experiments_[hash][idx]`. -/
def storeExperimentFrame (e : String → Int → Option ReplayFrame) (hash : String)
    (idx : Int) (f : ReplayFrame) : String → Int → Option ReplayFrame :=
  Function.update e hash (Function.update (e hash) idx (some f))

/-- The playback notifications the `FrameTimeVisualizer` constructor
subscribes to, with the playback state the handlers read (`isPlaying`,
`getCurrentStepIndex`) and the `wtf.now()` clock value. -/
inductive PlaybackEvent where
  | stepStarted (isPlaying : Bool) (currentStepIndex : Int) (now : ℚ)
  | stepChanged (isPlaying : Bool) (now : ℚ)
  | playStopped
  | visualizerStateChanged (hash : String)

/-- The event handlers of the final `FrameTimeVisualizer` revision:
`recordStart_` on `STEP_STARTED` (start timing the current frame, creating
it on demand, then update the latest step index), `recordStop_` on
`STEP_CHANGED` (stop timing the previous frame when playing),
the `PLAY_STOPPED` listener (cancel the previous frame's in-flight timing),
and `updateStateHash_` on `VISUALIZER_STATE_CHANGED`. -/
def FrameTimeVisualizer.handleEvent (v : FrameTimeVisualizer) :
    PlaybackEvent → FrameTimeVisualizer
  | .stepStarted playing idx now =>
    let v1 :=
      if playing then
        let f := ((v.experiments v.latestExperimentHash idx).getD
            (ReplayFrame.create idx)).startTiming now
        { v with experiments :=
            storeExperimentFrame v.experiments v.latestExperimentHash idx f }
      else v
    { v1 with latestStepIndex := idx }
  | .stepChanged playing now =>
    if playing then
      match v.experiments v.latestExperimentHash v.latestStepIndex with
      | some f =>
        { v with experiments :=
            (storeExperimentFrame v.experiments v.latestExperimentHash
              v.latestStepIndex (f.stopTiming now)) }
      | none => v
    else v
  | .playStopped =>
    match v.experiments v.latestExperimentHash v.latestStepIndex with
    | some f =>
      { v with experiments :=
          (storeExperimentFrame v.experiments v.latestExperimentHash
            v.latestStepIndex f.cancelTiming) }
    | none => v
  | .visualizerStateChanged h => { v with latestExperimentHash := h }

/-- The scenario of the frame-timing claim: frames 0 and 1 complete while
playing, frame 2 starts, playback stops before it ends, and a further step
change arrives. -/
def c7Scenario : List PlaybackEvent :=
  [.stepStarted true 0 0, .stepChanged true 10,
   .stepStarted true 1 10, .stepChanged true 25,
   .stepStarted true 2 25, .playStopped, .stepChanged true 40]

/-- The visualizer state after running the scenario from a fresh instance. -/
def c7Final : FrameTimeVisualizer :=
  c7Scenario.foldl FrameTimeVisualizer.handleEvent (FrameTimeVisualizer.create "")

/-! ### Concrete demonstration values -/

/-- A concrete rendering context used by closed witnesses/counterexamples. -/
def glDemo : GLContext :=
  { toggles := fun _ => false
    activeTexture := TEXTURE0
    texBinding2D := fun _ => none
    texBindingCubeMap := fun _ => none
    maxTextureUnits := 2
    framebufferBinding := none
    renderbufferBinding := none
    texStorage := fun _ => none
    rbStorage := fun _ => none
    clearColorVal := (1, 1, 1, 1)
    fbColorCleared := fun _ => none
    fbDepthCleared := fun _ => false }

/-- A concrete intermediate buffer whose framebuffer handle is 5. -/
def ibDemo : IntermediateBuffer :=
  { width := 640
    height := 480
    webGLState := WebGLState.create
    resizeDisabled := false
    framebuffer := 5
    rtt := 6
    renderbuffer := 7
    drawTextureProgram := 8
    squareVertexPositionBuffer := 9
    squareTextureCoordBuffer := 10 }

/-- An active skip-calls visualizer skipping program handle 1. -/
def skipDemoActive : SkipCallsVisualizer :=
  { active := true, latestProgramHandle := 0, skippedProgramHandles := [false, true] }

/-- The same configuration as `skipDemoActive` but inactive. -/
def skipDemoInactive : SkipCallsVisualizer :=
  { skipDemoActive with active := false }

/-- An active skip-calls visualizer skipping program handle 0. -/
def skipDemoOther : SkipCallsVisualizer :=
  { active := true, latestProgramHandle := 0, skippedProgramHandles := [true] }

/-- Overdraw stats with one overdrawn pixel, zero affected pixels and a
hundred total pixels. -/
def statsDemo : OverdrawStats :=
  { numOverdraw := 1, numAffected := 0, numPixels := 100 }

/-! ### Characterization of backup and restore -/

theorem setActiveTexture_self (g : GLContext) : g.setActiveTexture g.activeTexture = g := by
  cases g; rfl

theorem setActiveTexture_setActiveTexture (g : GLContext) (a b : Nat) :
    (g.setActiveTexture a).setActiveTexture b = g.setActiveTexture b := rfl

theorem getTexBinding2D_setActiveTexture (g : GLContext) (i : Nat) :
    (g.setActiveTexture (TEXTURE0 + i)).getTexBinding2D = g.texBinding2D i := by
  simp [GLContext.getTexBinding2D, GLContext.setActiveTexture, GLContext.boundTextureUnit]

theorem getTexBindingCubeMap_setActiveTexture (g : GLContext) (i : Nat) :
    (g.setActiveTexture (TEXTURE0 + i)).getTexBindingCubeMap = g.texBindingCubeMap i := by
  simp [GLContext.getTexBindingCubeMap, GLContext.setActiveTexture, GLContext.boundTextureUnit]

/-- The texture-unit scan of `backup` changes nothing but the active texture
enum, and records exactly the bindings of units `0, …, n-1`. -/
theorem backupScan_spec (gl : GLContext) (s2 sc : Nat → Option Nat) : ∀ n : Nat,
    ∃ a, (List.range n).foldl backupScanStep (gl, s2, sc) =
      (gl.setActiveTexture a,
       (fun i => if i < n then gl.texBinding2D i else s2 i),
       (fun i => if i < n then gl.texBindingCubeMap i else sc i)) := by
  intro n
  induction n with
  | zero =>
    refine ⟨gl.activeTexture, ?_⟩
    simp [setActiveTexture_self]
  | succ n ih =>
    obtain ⟨a, ha⟩ := ih
    refine ⟨TEXTURE0 + n, ?_⟩
    rw [List.range_succ, List.foldl_append, ha]
    simp only [List.foldl_cons, List.foldl_nil, backupScanStep,
      setActiveTexture_setActiveTexture, getTexBinding2D_setActiveTexture,
      getTexBindingCubeMap_setActiveTexture, Prod.mk.injEq]
    refine ⟨trivial, ?_, ?_⟩ <;>
    · funext i
      simp only [Function.update_apply, GLContext.setActiveTexture]
      by_cases hi : i = n
      · subst hi; simp
      · simp [hi, Nat.lt_succ_iff_lt_or_eq]

/-- Characterization of `WebGLState.prototype.backup`: the context is left
exactly as found, and the returned snapshot records the current toggle
values, active texture, and per-unit bindings. -/
theorem WebGLState.backup_spec (ws : WebGLState) (gl : GLContext) :
    ws.backup gl =
      ({ backupStored := true
         savedToggleStates := toggleStatesList.map fun t => (t, gl.toggles t)
         savedActiveTexture := some gl.activeTexture
         savedTextureBinding2Ds := fun i =>
           if i < gl.maxTextureUnits then gl.texBinding2D i else ws.savedTextureBinding2Ds i
         savedTextureBindingCubeMaps := fun i =>
           if i < gl.maxTextureUnits then gl.texBindingCubeMap i
           else ws.savedTextureBindingCubeMaps i }, gl) := by
  obtain ⟨a, ha⟩ := backupScan_spec gl ws.savedTextureBinding2Ds
    ws.savedTextureBindingCubeMaps gl.maxTextureUnits
  simp only [WebGLState.backup, ha, setActiveTexture_setActiveTexture,
    setActiveTexture_self]

theorem restoreToggleStep_eq (g : GLContext) (p : Nat × Bool) :
    restoreToggleStep g p = { g with toggles := Function.update g.toggles p.1 p.2 } := by
  rcases p with ⟨t, b⟩
  cases b <;> simp [restoreToggleStep, GLContext.enable, GLContext.disable]

/-- The toggle loop of `restore`, applied to a saved map that recorded `f t`
for every enum `t` in `l`, sets each enum in `l` to its recorded value and
leaves every other capability unchanged. -/
theorem restoreToggles_spec (f : Nat → Bool) : ∀ (l : List Nat) (gl : GLContext),
    (l.map fun t => (t, f t)).foldl restoreToggleStep gl =
      { gl with toggles := fun x => if x ∈ l then f x else gl.toggles x } := by
  intro l
  induction l with
  | nil => intro gl; simp
  | cons t ts ih =>
    intro gl
    simp only [List.map_cons, List.foldl_cons, restoreToggleStep_eq, ih]
    congr 1
    funext x
    by_cases hx : x ∈ ts
    · simp [hx]
    · by_cases hxt : x = t <;> simp [Function.update, hx, hxt]

/-- One iteration of the texture-unit loop of `restore` as a record update:
it selects unit `i` and overwrites that unit's two bindings with the saved
values. -/
theorem restoreTexStep_eq (ws : WebGLState) (g : GLContext) (i : Nat) :
    restoreTexStep ws g i =
      { g with
        activeTexture := TEXTURE0 + i
        texBinding2D := Function.update g.texBinding2D i (ws.savedTextureBinding2Ds i)
        texBindingCubeMap :=
          Function.update g.texBindingCubeMap i (ws.savedTextureBindingCubeMaps i) } := by
  simp [restoreTexStep, GLContext.bindTexture2D, GLContext.bindTextureCubeMap,
    GLContext.setActiveTexture, GLContext.boundTextureUnit]

/-- The texture-unit loop of `restore` writes the saved bindings into units
`0, …, n-1`, touching only the active-texture enum and the two binding maps. -/
theorem restoreTexScan_spec (ws : WebGLState) (gl : GLContext) : ∀ n : Nat,
    ∃ a, (List.range n).foldl (restoreTexStep ws) gl =
      { gl with
        activeTexture := a
        texBinding2D := fun u =>
          if u < n then ws.savedTextureBinding2Ds u else gl.texBinding2D u
        texBindingCubeMap := fun u =>
          if u < n then ws.savedTextureBindingCubeMaps u else gl.texBindingCubeMap u } := by
  intro n
  induction n with
  | zero => exact ⟨gl.activeTexture, by simp⟩
  | succ n ih =>
    obtain ⟨a, ha⟩ := ih
    refine ⟨TEXTURE0 + n, ?_⟩
    rw [List.range_succ, List.foldl_append, ha]
    simp only [List.foldl_cons, List.foldl_nil, restoreTexStep_eq]
    ext u <;> try rfl
    all_goals
      simp only [Function.update_apply]
      by_cases hu : u = n
      · subst hu; simp
      · simp [hu, Nat.lt_succ_iff_lt_or_eq]

/-- Characterization of `WebGLState.prototype.restore` for a snapshot whose
saved toggle map records `f t` for each tracked enum `t` (the shape `backup`
always produces). -/
theorem WebGLState.restore_spec (ws : WebGLState) (gl : GLContext) (f : Nat → Bool)
    (hs : ws.backupStored = true)
    (ht : ws.savedToggleStates = toggleStatesList.map fun t => (t, f t)) :
    ws.restore gl = some
      { gl with
        toggles := fun x => if x ∈ toggleStatesList then f x else gl.toggles x
        activeTexture := ws.savedActiveTexture.getD 0
        texBinding2D := fun u =>
          if u < gl.maxTextureUnits then ws.savedTextureBinding2Ds u else gl.texBinding2D u
        texBindingCubeMap := fun u =>
          if u < gl.maxTextureUnits then ws.savedTextureBindingCubeMaps u
          else gl.texBindingCubeMap u } := by
  obtain ⟨a, ha⟩ := restoreTexScan_spec ws
    ({ gl with toggles := fun x => if x ∈ toggleStatesList then f x else gl.toggles x })
    gl.maxTextureUnits
  simp only [WebGLState.restore, hs, if_true, ht, restoreToggles_spec f toggleStatesList gl]
  rw [show ({ gl with toggles := fun x => if x ∈ toggleStatesList then f x
        else gl.toggles x } : GLContext).maxTextureUnits = gl.maxTextureUnits from rfl, ha]
  rfl

/-- Round trip: `backup`, an arbitrary mutation `m` of the context that
preserves the texture-unit limit (an implementation constant), then
`restore`. The restore succeeds, the tracked observations return to their
pre-backup values, and every untracked component is exactly as the mutation
left it. -/
theorem backup_mutate_restore (ws : WebGLState) (gl : GLContext)
    (m : GLContext → GLContext) (hm : (m gl).maxTextureUnits = gl.maxTextureUnits) :
    ∃ gl', ((ws.backup gl).1).restore (m ((ws.backup gl).2)) = some gl' ∧
      trackedObservations gl' = trackedObservations gl ∧
      gl'.maxTextureUnits = gl.maxTextureUnits ∧
      gl'.framebufferBinding = (m gl).framebufferBinding ∧
      gl'.renderbufferBinding = (m gl).renderbufferBinding ∧
      gl'.texStorage = (m gl).texStorage ∧
      gl'.rbStorage = (m gl).rbStorage ∧
      gl'.clearColorVal = (m gl).clearColorVal ∧
      gl'.fbColorCleared = (m gl).fbColorCleared ∧
      gl'.fbDepthCleared = (m gl).fbDepthCleared := by
  rw [WebGLState.backup_spec]
  dsimp only
  rw [WebGLState.restore_spec _ _ (fun t => gl.toggles t) rfl rfl]
  refine ⟨_, rfl, ?_, hm, rfl, rfl, rfl, rfl, rfl, rfl, rfl⟩
  simp only [trackedObservations, Prod.mk.injEq]
  refine ⟨?_, by simp, ?_, ?_⟩
  · refine List.map_congr_left fun x hx => ?_
    simp [hx]
  · rw [show ({ m gl with
        toggles := fun x => if x ∈ toggleStatesList then gl.toggles x
          else (m gl).toggles x
        activeTexture := (some gl.activeTexture).getD 0
        texBinding2D := fun u => if u < (m gl).maxTextureUnits then
            (if u < gl.maxTextureUnits then gl.texBinding2D u
             else ws.savedTextureBinding2Ds u)
          else (m gl).texBinding2D u
        texBindingCubeMap := fun u => if u < (m gl).maxTextureUnits then
            (if u < gl.maxTextureUnits then gl.texBindingCubeMap u
             else ws.savedTextureBindingCubeMaps u)
          else (m gl).texBindingCubeMap u } : GLContext).maxTextureUnits
        = gl.maxTextureUnits from hm]
    refine List.map_congr_left fun u hu => ?_
    rw [List.mem_range] at hu
    simp [hm, hu]
  · rw [show ({ m gl with
        toggles := fun x => if x ∈ toggleStatesList then gl.toggles x
          else (m gl).toggles x
        activeTexture := (some gl.activeTexture).getD 0
        texBinding2D := fun u => if u < (m gl).maxTextureUnits then
            (if u < gl.maxTextureUnits then gl.texBinding2D u
             else ws.savedTextureBinding2Ds u)
          else (m gl).texBinding2D u
        texBindingCubeMap := fun u => if u < (m gl).maxTextureUnits then
            (if u < gl.maxTextureUnits then gl.texBindingCubeMap u
             else ws.savedTextureBindingCubeMaps u)
          else (m gl).texBindingCubeMap u } : GLContext).maxTextureUnits
        = gl.maxTextureUnits from hm]
    refine List.map_congr_left fun u hu => ?_
    rw [List.mem_range] at hu
    simp [hm, hu]

/-- Claim C1: for paired `WebGLState.backup()`/`restore()` calls with
arbitrary intervening mutation of the tracked context state (the seven
toggle flags, the active texture unit, and the 2D and cube-map bindings of
every texture unit below the implementation's texture-unit limit, which the
mutation does not change), the tracked values observed immediately after
`restore()` equal those observed immediately before the matching
`backup()`, and the originally active texture unit is active again.
Since the pre-backup snapshot state `ws` and context `gl` are arbitrary,
this applies to every pair of any sequence of such calls. -/
theorem webglstate_backup_restore_roundtrip (ws : WebGLState) (gl : GLContext)
    (m : GLContext → GLContext) (hm : (m gl).maxTextureUnits = gl.maxTextureUnits) :
    ∃ gl', ((ws.backup gl).1).restore (m ((ws.backup gl).2)) = some gl' ∧
      trackedObservations gl' = trackedObservations gl ∧
      gl'.activeTexture = gl.activeTexture := by
  obtain ⟨gl', h1, h2, -⟩ := backup_mutate_restore ws gl m hm
  exact ⟨gl', h1, h2, congrArg (fun p => p.2.1) h2⟩

/-- Witness for claim C1 at a concrete context, with `gl.enable(BLEND)` as
the intervening mutation. -/
theorem webglstate_backup_restore_roundtrip_witness :
    ∃ gl', ((WebGLState.create.backup glDemo).1).restore
        (((WebGLState.create.backup glDemo).2).enable BLEND) = some gl' ∧
      trackedObservations gl' = trackedObservations glDemo ∧
      gl'.activeTexture = glDemo.activeTexture :=
  webglstate_backup_restore_roundtrip WebGLState.create glDemo
    (fun g => g.enable BLEND) rfl

/-- Claim C2: calling `restore()` on a `WebGLState` on which `backup()` has
never been called hits the `goog.asserts.assert(this.backupStored_)`
assertion (modelled as `none`) instead of silently proceeding, while after
at least one `backup()` the `backupStored_` flag is set and `restore()`
always proceeds to a result. -/
theorem webglstate_restore_requires_backup :
    (∀ gl : GLContext, WebGLState.create.restore gl = none) ∧
    (∀ (ws : WebGLState) (gl : GLContext), ((ws.backup gl).1).backupStored = true) ∧
    (∀ (ws : WebGLState) (gl : GLContext), ws.backupStored = true →
      ∃ gl', ws.restore gl = some gl') := by
  refine ⟨fun gl => rfl, fun ws gl => by rw [WebGLState.backup_spec], fun ws gl h => ?_⟩
  simp only [WebGLState.restore, h, if_true]
  exact ⟨_, rfl⟩

/-- Witness for claim C2: after one concrete `backup()`, `restore()`
succeeds. -/
theorem webglstate_restore_requires_backup_witness :
    ∃ gl', ((WebGLState.create.backup glDemo).1).restore glDemo = some gl' :=
  webglstate_restore_requires_backup.2.2 ((WebGLState.create.backup glDemo).1)
    glDemo (webglstate_restore_requires_backup.2.1 WebGLState.create glDemo)

/-- Claim C3 counterexample: `IntermediateBuffer.clear()` does not leave
every caller-visible context state item unchanged — on a context whose
framebuffer binding is the default framebuffer (`null`), the binding after
`clear()` returns is the surface's own framebuffer (handle 5), because the
`WebGLState` snapshot wrapped around `clear()` does not track the
framebuffer binding. -/
theorem intermediatebuffer_clear_counterexample :
    ((ibDemo.clear glDemo).map fun p => p.2.framebufferBinding) = some (some 5) ∧
    glDemo.framebufferBinding = none ∧ (some 5 : Option Nat) ≠ none := by
  refine ⟨by decide, rfl, by decide⟩

/-- Claim C3 (amended): `clear()` clears the surface's color and depth
attachments (to transparent black) and restores the snapshot-tracked state
(toggle flags, active texture unit, texture bindings), but it leaves the
surface's framebuffer bound and the context clear color set to
`(0, 0, 0, 0)` — the caller's framebuffer binding and clear color are not
part of the snapshot and are not restored. -/
theorem intermediatebuffer_clear_spec (ib : IntermediateBuffer) (gl : GLContext) :
    ∃ ib' gl', ib.clear gl = some (ib', gl') ∧
      trackedObservations gl' = trackedObservations gl ∧
      gl'.framebufferBinding = some ib.framebuffer ∧
      gl'.clearColorVal = (0, 0, 0, 0) ∧
      gl'.fbColorCleared (some ib.framebuffer) = some (0, 0, 0, 0) ∧
      gl'.fbDepthCleared (some ib.framebuffer) = true := by
  obtain ⟨gl', h1, h2, -, hfb, -, -, -, hcc, hfbc, hfbd⟩ :=
    backup_mutate_restore ib.webGLState gl
      (fun g => ((g.bindFramebuffer (some ib.framebuffer)).clearColor
        (0, 0, 0, 0)).clearColorDepth) rfl
  refine ⟨{ ib with webGLState := (ib.webGLState.backup gl).1 }, gl', ?_, h2, ?_, ?_, ?_, ?_⟩
  · simp only [IntermediateBuffer.clear, IntermediateBuffer.bindFramebuffer]
    rw [h1]
    rfl
  · rw [hfb]; rfl
  · rw [hcc]; rfl
  · rw [hfbc]
    simp [GLContext.clearColorDepth, GLContext.clearColor, GLContext.bindFramebuffer,
      Function.update_same]
  · rw [hfbd]
    simp [GLContext.clearColorDepth, GLContext.clearColor, GLContext.bindFramebuffer,
      Function.update_same]

theorem getTexBinding2D_bindTexture2D (g : GLContext) (t : Option Nat) :
    (g.bindTexture2D t).getTexBinding2D = t := by
  simp [GLContext.getTexBinding2D, GLContext.bindTexture2D, GLContext.boundTextureUnit,
    Function.update_same]

/-- The context mutation performed by the reallocating branch of `resize`,
as a single record update. -/
theorem resizeMutation_eq (rtt renderbuffer w h : Nat) (g : GLContext) :
    (((g.bindTexture2D (some rtt)).texImage2D w h).bindRenderbuffer
        (some renderbuffer)).renderbufferStorage w h =
      { g with
        texBinding2D := Function.update g.texBinding2D g.boundTextureUnit (some rtt)
        texStorage := Function.update g.texStorage rtt (some (w, h))
        renderbufferBinding := some renderbuffer
        rbStorage := Function.update g.rbStorage renderbuffer (some (w, h)) } := by
  have h1 : ((g.bindTexture2D (some rtt)).texImage2D w h) =
      { g with
        texBinding2D := Function.update g.texBinding2D g.boundTextureUnit (some rtt)
        texStorage := Function.update g.texStorage rtt (some (w, h)) } := by
    rw [GLContext.texImage2D, getTexBinding2D_bindTexture2D]
    rfl
  rw [h1]
  rfl

/-- Claim C8: `resize(w, h)` is an exact no-op (same buffer record, same
context) when resizing is disabled or the dimensions are unchanged; for any
dimensions, an immediately repeated `resize(w, h)` is a no-op; and when
`resize` does reallocate, the framebuffer/texture/renderbuffer handles are
kept, the texture and renderbuffer storage are reallocated at the new
dimensions, and the snapshot-tracked context state is left as found. -/
theorem intermediatebuffer_resize_spec :
    (∀ (ib : IntermediateBuffer) (gl : GLContext) (w h : Nat),
      ib.resizeDisabled = true ∨ (ib.width = w ∧ ib.height = h) →
      ib.resize gl w h = some (ib, gl)) ∧
    (∀ (ib : IntermediateBuffer) (gl : GLContext) (w h : Nat),
      ∃ ib1 gl1, ib.resize gl w h = some (ib1, gl1) ∧
        ib1.resize gl1 w h = some (ib1, gl1) ∧
        ib1.framebuffer = ib.framebuffer ∧ ib1.rtt = ib.rtt ∧
        ib1.renderbuffer = ib.renderbuffer) ∧
    (∀ (ib : IntermediateBuffer) (gl : GLContext) (w h : Nat),
      ib.resizeDisabled = false → ¬(ib.width = w ∧ ib.height = h) →
      ∃ ib1 gl1, ib.resize gl w h = some (ib1, gl1) ∧
        ib1.width = w ∧ ib1.height = h ∧ ib1.resizeDisabled = false ∧
        ib1.framebuffer = ib.framebuffer ∧ ib1.rtt = ib.rtt ∧
        ib1.renderbuffer = ib.renderbuffer ∧
        gl1.texStorage ib.rtt = some (w, h) ∧
        gl1.rbStorage ib.renderbuffer = some (w, h) ∧
        trackedObservations gl1 = trackedObservations gl) := by
  have hnoop : ∀ (ib : IntermediateBuffer) (gl : GLContext) (w h : Nat),
      ib.resizeDisabled = true ∨ (ib.width = w ∧ ib.height = h) →
      ib.resize gl w h = some (ib, gl) := by
    intro ib gl w h hc
    rw [IntermediateBuffer.resize, if_pos]
    exact hc.elim (fun hd => Or.inl (by rw [hd])) Or.inr
  have hrealloc : ∀ (ib : IntermediateBuffer) (gl : GLContext) (w h : Nat),
      ib.resizeDisabled = false → ¬(ib.width = w ∧ ib.height = h) →
      ∃ ib1 gl1, ib.resize gl w h = some (ib1, gl1) ∧
        ib1.width = w ∧ ib1.height = h ∧ ib1.resizeDisabled = false ∧
        ib1.framebuffer = ib.framebuffer ∧ ib1.rtt = ib.rtt ∧
        ib1.renderbuffer = ib.renderbuffer ∧
        gl1.texStorage ib.rtt = some (w, h) ∧
        gl1.rbStorage ib.renderbuffer = some (w, h) ∧
        trackedObservations gl1 = trackedObservations gl := by
    intro ib gl w h hd hne
    have hmax : ((((gl.bindTexture2D (some ib.rtt)).texImage2D w h).bindRenderbuffer
        (some ib.renderbuffer)).renderbufferStorage w h).maxTextureUnits =
        gl.maxTextureUnits := by
      rw [resizeMutation_eq]
    obtain ⟨gl', h1, h2, -, -, -, hts, hrbs, -, -, -⟩ :=
      backup_mutate_restore ib.webGLState gl
        (fun g => (((g.bindTexture2D (some ib.rtt)).texImage2D w h).bindRenderbuffer
          (some ib.renderbuffer)).renderbufferStorage w h)
        hmax
    refine ⟨⟨w, h, (ib.webGLState.backup gl).1, ib.resizeDisabled, ib.framebuffer,
        ib.rtt, ib.renderbuffer, ib.drawTextureProgram, ib.squareVertexPositionBuffer,
        ib.squareTextureCoordBuffer⟩, gl', ?_, rfl, rfl, hd, rfl, rfl, rfl,
      ?_, ?_, h2⟩
    · rw [IntermediateBuffer.resize, if_neg (by simp [hd, hne])]
      dsimp only
      rw [h1]
      rfl
    · rw [hts, resizeMutation_eq]
      simp [Function.update_same]
    · rw [hrbs, resizeMutation_eq]
      simp [Function.update_same]
  refine ⟨hnoop, ?_, hrealloc⟩
  intro ib gl w h
  by_cases hc : ib.resizeDisabled = true ∨ (ib.width = w ∧ ib.height = h)
  · exact ⟨ib, gl, hnoop ib gl w h hc, hnoop ib gl w h hc, rfl, rfl, rfl⟩
  · rw [not_or] at hc
    obtain ⟨hd, hne⟩ := hc
    obtain ⟨ib1, gl1, heq, hw, hh, -, hfb, hrt, hrb, -, -, -⟩ :=
      hrealloc ib gl w h (Bool.not_eq_true _ ▸ hd) hne
    exact ⟨ib1, gl1, heq, hnoop ib1 gl1 w h (Or.inr ⟨hw, hh⟩), hfb, hrt, hrb⟩

/-- Witness for claim C8: a no-op resize at unchanged concrete dimensions,
and a reallocating resize at new concrete dimensions. -/
theorem intermediatebuffer_resize_spec_witness :
    ibDemo.resize glDemo 640 480 = some (ibDemo, glDemo) ∧
    ∃ ib1 gl1, ibDemo.resize glDemo 800 600 = some (ib1, gl1) ∧
      ib1.width = 800 ∧ ib1.height = 600 ∧ ib1.resizeDisabled = false ∧
      ib1.framebuffer = ibDemo.framebuffer ∧ ib1.rtt = ibDemo.rtt ∧
      ib1.renderbuffer = ibDemo.renderbuffer ∧
      gl1.texStorage ibDemo.rtt = some (800, 600) ∧
      gl1.rbStorage ibDemo.renderbuffer = some (800, 600) ∧
      trackedObservations gl1 = trackedObservations glDemo :=
  ⟨intermediatebuffer_resize_spec.1 ibDemo glDemo 640 480 (Or.inr ⟨rfl, rfl⟩),
   intermediatebuffer_resize_spec.2.2 ibDemo glDemo 800 600 rfl (by decide)⟩

/-- A uniform type is recognized by the `switch` of `syncPrograms_` exactly
when it is one of the sixteen listed types. -/
theorem syncUniformSetter_isSome (t : Nat) :
    (syncUniformSetter t).isSome = true ↔ t ∈ supportedUniformTypes := by
  constructor
  · intro h
    by_contra hmem
    simp only [supportedUniformTypes, List.mem_cons, List.not_mem_nil, or_false,
      not_or] at hmem
    obtain ⟨n1, n2, n3, n4, n5, n6, n7, n8, n9, n10, n11, n12, n13, n14, n15, n16⟩ := hmem
    simp only [syncUniformSetter, n1, n2, n3, n4, n5, n6, n7, n8, n9, n10, n11, n12,
      n13, n14, n15, n16, if_false, Option.isSome_none] at h
    exact Bool.false_ne_true h
  · intro h
    fin_cases h <;> decide

/-- Claim C4 counterexample: the supported set of the uniform-sync `switch`
has sixteen distinct GLSL types, not twelve, and `BOOL_VEC4` — a boolean
vector, hence in the claim's supported categories — is not among them: an
active uniform of that type hits the fatal `default` branch. -/
theorem program_sync_uniform_types_counterexample :
    syncUniformSetter BOOL_VEC4 = none ∧
    supportedUniformTypes.length = 16 ∧
    supportedUniformTypes.dedup.length = 16 ∧
    supportedUniformTypes.all (fun t => (syncUniformSetter t).isSome) = true := by
  decide

/-- Claim C4 (amended): the uniform-sync loop of the final `syncPrograms_`
revision succeeds exactly when every active uniform's type is among the
sixteen types of the `switch` (bool, bvec2, bvec3, int, ivec2-4, float,
vec2-4, mat2-4, sampler2D, samplerCube — bvec4 is missing); any other type
is a fatal `goog.asserts.fail` (abort), never a silent skip. -/
theorem program_sync_uniform_types (types : List Nat) :
    (syncUniforms types).isSome = true ↔
      ∀ t ∈ types, t ∈ supportedUniformTypes := by
  induction types with
  | nil => simp [syncUniforms]
  | cons t ts ih =>
    rw [List.forall_mem_cons, ← ih, ← syncUniformSetter_isSome]
    cases hs : syncUniformSetter t <;> cases hr : syncUniforms ts <;>
      simp [syncUniforms, hs, hr]

/-- Witness for claim C4 at a concrete uniform type list. -/
theorem program_sync_uniform_types_witness :
    (syncUniforms [FLOAT_MAT4, SAMPLER_2D]).isSome = true :=
  (program_sync_uniform_types [FLOAT_MAT4, SAMPLER_2D]).mpr (by decide)

/-- Claim C6 counterexample: with zero affected pixels (below ε = 0.001),
one overdrawn pixel and a hundred total pixels, `Overdraw.prototype.trigger`
reports `numOverdraw / numPixels = 0.01`, not the exact 0 the claim
requires when `affectedPixels < ε` (and not `overdrawPixels /
affectedPixels` either). -/
theorem overdraw_trigger_amount_counterexample :
    statsDemo.numAffected < 1 / 1000 ∧
    overdrawTriggerAmount statsDemo = 1 / 100 ∧
    overdrawTriggerAmount statsDemo ≠ 0 := by
  refine ⟨by norm_num [statsDemo], by norm_num [overdrawTriggerAmount, statsDemo],
    by norm_num [overdrawTriggerAmount, statsDemo]⟩

/-- Claim C6 (amended): `HighlightVisualizer.prototype.trigger` reports
`overdrawPixels / affectedPixels` guarded by ε = 0.001 — for integer pixel
counts the guard fires exactly when `affectedPixels = 0`, so the reported
amount is 0 there and the exact quotient otherwise; the
`Overdraw.prototype.trigger` revision instead divides by the total pixel
count with no guard. -/
theorem overdraw_amount_spec :
    (∀ o A p : ℕ, highlightTriggerOverdrawAmount ⟨(o : ℚ), (A : ℚ), (p : ℚ)⟩ =
        if A = 0 then 0 else (o : ℚ) / (A : ℚ)) ∧
    (∀ o A p : ℕ, 0 < A →
        highlightTriggerOverdrawAmount ⟨(o : ℚ), (A : ℚ), (p : ℚ)⟩ * (A : ℚ) = (o : ℚ)) ∧
    (∀ o A p : ℕ, 0 < p →
        overdrawTriggerAmount ⟨(o : ℚ), (A : ℚ), (p : ℚ)⟩ * (p : ℚ) = (o : ℚ)) := by
  have hkey : ∀ o A p : ℕ, highlightTriggerOverdrawAmount ⟨(o : ℚ), (A : ℚ), (p : ℚ)⟩ =
      if A = 0 then 0 else (o : ℚ) / (A : ℚ) := by
    intro o A p
    by_cases hA : A = 0
    · subst hA
      rw [highlightTriggerOverdrawAmount, if_pos (by norm_num), if_pos rfl]
    · have h1 : (1 : ℚ) ≤ (A : ℚ) := by
        exact_mod_cast Nat.one_le_iff_ne_zero.mpr hA
      rw [highlightTriggerOverdrawAmount, if_neg (by dsimp only; linarith), if_neg hA]
  refine ⟨hkey, fun o A p hA => ?_, fun o A p hp => ?_⟩
  · rw [hkey, if_neg (Nat.pos_iff_ne_zero.mp hA)]
    exact div_mul_cancel₀ _ (by exact_mod_cast Nat.pos_iff_ne_zero.mp hA)
  · rw [overdrawTriggerAmount]
    show (o : ℚ) / (p : ℚ) * (p : ℚ) = (o : ℚ)
    exact div_mul_cancel₀ _ (by exact_mod_cast Nat.pos_iff_ne_zero.mp hp)

/-- Witness for claim C6 at concrete pixel counts. -/
theorem overdraw_amount_spec_witness :
    highlightTriggerOverdrawAmount ⟨((6 : ℕ) : ℚ), ((3 : ℕ) : ℚ), ((100 : ℕ) : ℚ)⟩ *
      ((3 : ℕ) : ℚ) = ((6 : ℕ) : ℚ) :=
  overdraw_amount_spec.2.1 6 3 100 (by norm_num)

/-! ### ReplayFrame timing lemmas -/

theorem timingInv_create (n : Int) : TimingInv (ReplayFrame.create n) := by
  refine ⟨rfl, rfl, rfl, rfl⟩

theorem timingInv_applyOp (f : ReplayFrame) (h : TimingInv f) (op : FrameOp) :
    TimingInv (f.applyOp op) := by
  obtain ⟨h1, h2, h3, h4⟩ := h
  cases op with
  | start t => exact ⟨h1, h2, h3, h4⟩
  | cancel => exact ⟨h1, h2, h3, h4⟩
  | stop t =>
    rw [ReplayFrame.applyOp, ReplayFrame.stopTiming]
    by_cases hv : f.valid = true
    · rw [if_pos hv]
      refine ⟨?_, ?_, ?_, ?_⟩
      · simp [h1]
      · simp [h2]
      · rw [List.zipWith_append _ _ _ _ _ (h1.symm)]
        simp [h3]
      · simp [h4]
    · rw [if_neg hv]
      exact ⟨h1, h2, h3, h4⟩

theorem timingInv_fold (n : Int) (ops : List FrameOp) :
    TimingInv (ops.foldl ReplayFrame.applyOp (ReplayFrame.create n)) := by
  suffices h : ∀ f : ReplayFrame, TimingInv f →
      TimingInv (ops.foldl ReplayFrame.applyOp f) from h _ (timingInv_create n)
  induction ops with
  | nil => exact fun f hf => hf
  | cons op ops ih => exact fun f hf => ih _ (timingInv_applyOp f hf op)

theorem number_applyOp (f : ReplayFrame) (op : FrameOp) :
    (f.applyOp op).number = f.number := by
  cases op with
  | start t => rfl
  | cancel => rfl
  | stop t =>
    rw [ReplayFrame.applyOp, ReplayFrame.stopTiming]
    split <;> rfl

theorem number_fold (ops : List FrameOp) : ∀ f : ReplayFrame,
    (ops.foldl ReplayFrame.applyOp f).number = f.number := by
  induction ops with
  | nil => exact fun f => rfl
  | cons op ops ih =>
    intro f
    rw [List.foldl_cons, ih, number_applyOp]

/-- Claim C9: from a fresh `ReplayFrame`, any sequence of
`startTiming`/`stopTiming`/`cancelTiming` calls maintains the invariant
that the start, stop and duration lists have equal length, each duration is
the difference of its stop/start pair, and the stored total equals the sum
of the durations; no call removes or alters prior entries, and a completed
recording (a `stopTiming` with a valid in-flight timing) appends exactly
one entry to all three lists. -/
theorem replayframe_timing_invariant :
    (∀ (n : Int) (ops : List FrameOp),
      TimingInv (ops.foldl ReplayFrame.applyOp (ReplayFrame.create n))) ∧
    (∀ (f : ReplayFrame) (op : FrameOp),
      f.startTimes.length ≤ (f.applyOp op).startTimes.length ∧
      (f.applyOp op).startTimes.take f.startTimes.length = f.startTimes ∧
      (f.applyOp op).stopTimes.take f.stopTimes.length = f.stopTimes ∧
      (f.applyOp op).durations.take f.durations.length = f.durations) ∧
    (∀ (f : ReplayFrame) (t : ℚ), f.valid = true →
      (f.stopTiming t).startTimes = f.startTimes ++ [f.latestStartTime] ∧
      (f.stopTiming t).stopTimes = f.stopTimes ++ [t] ∧
      (f.stopTiming t).durations = f.durations ++ [t - f.latestStartTime] ∧
      (f.stopTiming t).totalDuration = f.totalDuration + (t - f.latestStartTime)) := by
  refine ⟨timingInv_fold, ?_, ?_⟩
  · intro f op
    cases op with
    | start t => exact ⟨Nat.le_refl _, List.take_length _, List.take_length _, List.take_length _⟩
    | cancel => exact ⟨Nat.le_refl _, List.take_length _, List.take_length _, List.take_length _⟩
    | stop t =>
      rw [ReplayFrame.applyOp, ReplayFrame.stopTiming]
      by_cases hv : f.valid = true
      · rw [if_pos hv]
        refine ⟨by simp, List.take_left _ _, List.take_left _ _, List.take_left _ _⟩
      · rw [if_neg hv]
        exact ⟨Nat.le_refl _, List.take_length _, List.take_length _, List.take_length _⟩
  · intro f t hv
    rw [ReplayFrame.stopTiming, if_pos hv]
    exact ⟨rfl, rfl, rfl, rfl⟩

/-- Witness for claim C9: a concrete completed recording appends one entry
to each list. -/
theorem replayframe_timing_invariant_witness :
    (((ReplayFrame.create 0).startTiming 5).stopTiming 12).startTimes =
      ((ReplayFrame.create 0).startTiming 5).startTimes ++
        [((ReplayFrame.create 0).startTiming 5).latestStartTime] ∧
    (((ReplayFrame.create 0).startTiming 5).stopTiming 12).stopTimes =
      ((ReplayFrame.create 0).startTiming 5).stopTimes ++ [12] ∧
    (((ReplayFrame.create 0).startTiming 5).stopTiming 12).durations =
      ((ReplayFrame.create 0).startTiming 5).durations ++
        [12 - ((ReplayFrame.create 0).startTiming 5).latestStartTime] ∧
    (((ReplayFrame.create 0).startTiming 5).stopTiming 12).totalDuration =
      ((ReplayFrame.create 0).startTiming 5).totalDuration +
        (12 - ((ReplayFrame.create 0).startTiming 5).latestStartTime) :=
  replayframe_timing_invariant.2.2 ((ReplayFrame.create 0).startTiming 5) 12 rfl

/-- Claim C10: on a `ReplayFrame` with no completed recording (empty
durations list), `getAverageDuration()` performs the unguarded division
`0 / 0` and returns NaN (neither an error nor 0), while `getTooltip()`
guards the empty case and emits only the frame header. -/
theorem replayframe_average_empty_nan (n : Int) (ops : List FrameOp)
    (h : (ops.foldl ReplayFrame.applyOp (ReplayFrame.create n)).durations = []) :
    (ops.foldl ReplayFrame.applyOp (ReplayFrame.create n)).getAverageDuration =
      JSNumber.nan ∧
    (ops.foldl ReplayFrame.applyOp (ReplayFrame.create n)).getTooltip =
      "Frame #" ++ intToString n ++ "\n" := by
  obtain ⟨-, -, -, h4⟩ := timingInv_fold n ops
  have htot : (ops.foldl ReplayFrame.applyOp (ReplayFrame.create n)).totalDuration = 0 := by
    rw [h4, h]; rfl
  constructor
  · rw [ReplayFrame.getAverageDuration, htot, h]
    simp [jsDiv]
  · rw [ReplayFrame.getTooltip]
    simp only [h, List.length_nil, lt_irrefl, if_false]
    rw [show (ops.foldl ReplayFrame.applyOp (ReplayFrame.create n)).number = n from
      number_fold ops (ReplayFrame.create n)]

/-- Witness for claim C10: a frame that was started and cancelled has an
empty durations list, a NaN average, and a header-only tooltip. -/
theorem replayframe_average_empty_nan_witness :
    ([FrameOp.start 3, FrameOp.cancel].foldl ReplayFrame.applyOp
        (ReplayFrame.create 0)).getAverageDuration = JSNumber.nan ∧
    ([FrameOp.start 3, FrameOp.cancel].foldl ReplayFrame.applyOp
        (ReplayFrame.create 0)).getTooltip = "Frame #" ++ intToString 0 ++ "\n" :=
  replayframe_average_empty_nan 0 [FrameOp.start 3, FrameOp.cancel] rfl

/-- Claim C7: in the recorded scenario (frames 0 and 1 timed to completion
while playing, frame 2 started, `PLAY_STOPPED` fired before frame 2 ends,
then a further step change), the in-flight sample of frame 2 is discarded —
`cancelTiming` invalidates it so the later `stopTiming` records nothing —
and frames 0 and 1 keep exactly their completed samples in the
`experiments_` store; but the frame accessors `getFrames`/`getFrame` read
the never-populated `frames_` array and return nothing at all. -/
theorem frametime_playstopped_discards_inflight :
    ((c7Final.experiments "" 0).map ReplayFrame.durations = some [10]) ∧
    ((c7Final.experiments "" 1).map ReplayFrame.durations = some [15]) ∧
    ((c7Final.experiments "" 2).map ReplayFrame.durations = some []) ∧
    ((c7Final.experiments "" 2).map ReplayFrame.startTimes = some []) ∧
    ((c7Final.experiments "" 2).map ReplayFrame.valid = some false) ∧
    ((c7Final.experiments "" 2).map ReplayFrame.totalDuration = some 0) ∧
    c7Final.frames = [] ∧
    (∀ experimentId, c7Final.getFrames experimentId = []) ∧
    c7Final.getFrame 0 0 = none := by
  have hexp :
      ((c7Final.experiments "" 0).map ReplayFrame.durations = some [10]) ∧
      ((c7Final.experiments "" 1).map ReplayFrame.durations = some [15]) ∧
      ((c7Final.experiments "" 2).map ReplayFrame.durations = some []) ∧
      ((c7Final.experiments "" 2).map ReplayFrame.startTimes = some []) ∧
      ((c7Final.experiments "" 2).map ReplayFrame.valid = some false) ∧
      ((c7Final.experiments "" 2).map ReplayFrame.totalDuration = some 0) := by
    norm_num [c7Final, c7Scenario, FrameTimeVisualizer.handleEvent,
      FrameTimeVisualizer.create, storeExperimentFrame, ReplayFrame.create,
      ReplayFrame.startTiming, ReplayFrame.stopTiming, ReplayFrame.cancelTiming,
      Function.update]
  obtain ⟨e0, e1, e2, e3, e4, e5⟩ := hexp
  refine ⟨e0, e1, e2, e3, e4, e5, rfl, ?_, rfl⟩
  intro experimentId
  rw [FrameTimeVisualizer.getFrames, show c7Final.frames = [] from rfl]
  cases experimentId <;> rfl

/-! ### Decimal encoding lemmas -/

theorem digitChar_ne_comma (k : Nat) : digitChar k ≠ ',' := by
  unfold digitChar
  split_ifs <;> decide

theorem digitChar_toNat (k : Nat) (h : k < 10) : (digitChar k).toNat - 48 = k := by
  interval_cases k <;> decide

theorem natDecimalCharsCore_ne_nil (fuel n : Nat) (h : n < fuel) :
    natDecimalCharsCore fuel n ≠ [] := by
  cases fuel with
  | zero => omega
  | succ fuel =>
    rw [natDecimalCharsCore]
    split_ifs
    · simp
    · simp

theorem comma_not_mem_natDecimalCharsCore : ∀ fuel n : Nat, n < fuel →
    ',' ∉ natDecimalCharsCore fuel n := by
  intro fuel
  induction fuel with
  | zero => omega
  | succ fuel ih =>
    intro n h
    rw [natDecimalCharsCore]
    split_ifs with h10
    · simp only [List.mem_singleton]
      exact fun hc => digitChar_ne_comma n hc.symm
    · intro hmem
      rw [List.mem_append] at hmem
      rcases hmem with hmem | hmem
      · exact ih (n / 10) (by omega) hmem
      · rw [List.mem_singleton] at hmem
        exact digitChar_ne_comma (n % 10) hmem.symm

theorem ofDecimal_natDecimalCharsCore : ∀ fuel n : Nat, n < fuel →
    ofDecimalChars (natDecimalCharsCore fuel n) = n := by
  intro fuel
  induction fuel with
  | zero => omega
  | succ fuel ih =>
    intro n h
    rw [natDecimalCharsCore]
    split_ifs with h10
    · simp only [ofDecimalChars, List.foldl_cons, List.foldl_nil, Nat.mul_zero,
        Nat.zero_add]
      exact digitChar_toNat n h10
    · have h1 := ih (n / 10) (by omega)
      simp only [ofDecimalChars, List.foldl_append] at h1 ⊢
      rw [h1, List.foldl_cons, List.foldl_nil,
        digitChar_toNat (n % 10) (Nat.mod_lt _ (by norm_num))]
      omega

theorem ofDecimal_natDecimalChars (n : Nat) :
    ofDecimalChars (natDecimalChars n) = n :=
  ofDecimal_natDecimalCharsCore (n + 1) n (Nat.lt_succ_self n)

theorem natDecimalChars_injective {a b : Nat}
    (h : natDecimalChars a = natDecimalChars b) : a = b := by
  have := congrArg ofDecimalChars h
  rwa [ofDecimal_natDecimalChars, ofDecimal_natDecimalChars] at this

theorem comma_not_mem_natDecimalChars (n : Nat) : ',' ∉ natDecimalChars n :=
  comma_not_mem_natDecimalCharsCore (n + 1) n (Nat.lt_succ_self n)

theorem natDecimalChars_ne_nil (n : Nat) : natDecimalChars n ≠ [] :=
  natDecimalCharsCore_ne_nil (n + 1) n (Nat.lt_succ_self n)

/-- Unique decoding around the first comma: two splittings of the same
character list at a comma not occurring in either head agree. -/
theorem append_comma_inj : ∀ {a1 a2 r1 r2 : List Char}, ',' ∉ a1 → ',' ∉ a2 →
    a1 ++ ',' :: r1 = a2 ++ ',' :: r2 → a1 = a2 ∧ r1 = r2 := by
  intro a1
  induction a1 with
  | nil =>
    intro a2 r1 r2 _ h2 he
    cases a2 with
    | nil => simpa using he
    | cons c t =>
      exfalso
      simp only [List.nil_append, List.cons_append, List.cons.injEq] at he
      exact h2 (he.1 ▸ List.mem_cons_self c t)
  | cons x xs ih =>
    intro a2 r1 r2 h1 h2 he
    cases a2 with
    | nil =>
      exfalso
      simp only [List.cons_append, List.nil_append, List.cons.injEq] at he
      exact h1 (he.1 ▸ List.mem_cons_self x xs)
    | cons y t =>
      simp only [List.cons_append, List.cons.injEq] at he
      obtain ⟨hxy, he2⟩ := he
      have h1a : ',' ∉ xs := fun hm => h1 (List.mem_cons_of_mem _ hm)
      have h2a : ',' ∉ t := fun hm => h2 (List.mem_cons_of_mem _ hm)
      obtain ⟨ha, hr⟩ := ih h1a h2a he2
      exact ⟨by rw [hxy, ha], hr⟩

/-- The comma-joined decimal rendering of a list of naturals determines the
list: `Array.join(',')` over decimal numbers is injective. -/
theorem joinComma_natDecimal_inj : ∀ l1 l2 : List Nat,
    joinComma (l1.map natDecimalChars) = joinComma (l2.map natDecimalChars) →
    l1 = l2 := by
  intro l1
  induction l1 with
  | nil =>
    intro l2 h
    cases l2 with
    | nil => rfl
    | cons z zs =>
      exfalso
      cases zs with
      | nil =>
        exact natDecimalChars_ne_nil z h.symm
      | cons w ws =>
        simp only [List.map_nil, List.map_cons, joinComma] at h
        rcases List.append_eq_nil.mp h.symm with ⟨-, h2⟩
        exact List.cons_ne_nil _ _ h2
  | cons x xs ih =>
    intro l2 h
    cases l2 with
    | nil =>
      exfalso
      cases xs with
      | nil =>
        exact natDecimalChars_ne_nil x h
      | cons y ys =>
        simp only [List.map_cons, List.map_nil, joinComma] at h
        rcases List.append_eq_nil.mp h with ⟨-, h2⟩
        exact List.cons_ne_nil _ _ h2
    | cons z zs =>
      cases xs with
      | nil =>
        cases zs with
        | nil =>
          simp only [List.map_cons, List.map_nil, joinComma] at h
          rw [natDecimalChars_injective h]
        | cons w ws =>
          exfalso
          simp only [List.map_cons, List.map_nil, joinComma] at h
          apply comma_not_mem_natDecimalChars x
          rw [h, List.mem_append]
          exact Or.inr (List.mem_cons_self _ _)
      | cons y ys =>
        cases zs with
        | nil =>
          exfalso
          simp only [List.map_cons, List.map_nil, joinComma] at h
          apply comma_not_mem_natDecimalChars z
          rw [← h, List.mem_append]
          exact Or.inr (List.mem_cons_self _ _)
        | cons w ws =>
          simp only [List.map_cons, joinComma] at h
          obtain ⟨ha, hr⟩ := append_comma_inj (comma_not_mem_natDecimalChars x)
            (comma_not_mem_natDecimalChars z) h
          rw [natDecimalChars_injective ha, ih (w :: ws) hr]

/-- Claim C5 counterexample: `getStateHash()` depends on the visualizer's
activation state, not only on its skipped-program-handle configuration —
two visualizers with the identical configuration (program handle 1 skipped)
return `"1"` when active and `""` when inactive. -/
theorem skipcalls_getStateHash_counterexample :
    skipDemoActive.getStateHash = "1" ∧
    skipDemoInactive.getStateHash = "" ∧
    ("1" : String) ≠ "" ∧
    skipDemoActive.skippedProgramHandles = skipDemoInactive.skippedProgramHandles := by
  refine ⟨by decide, rfl, by decide, rfl⟩

/-- Claim C5 (amended): while a visualizer is active, `getStateHash()` is a
pure, injective function of its skipped-program-handle configuration — two
active visualizers return equal strings exactly when they skip the same
program handles; but an inactive visualizer always returns the empty
string, so the hash does depend on the activation state. -/
theorem skipcalls_getStateHash_characterization (v1 v2 : SkipCallsVisualizer)
    (h1 : v1.active = true) (h2 : v2.active = true) :
    v1.getStateHash = v2.getStateHash ↔ skippedIndices v1 = skippedIndices v2 := by
  rw [SkipCallsVisualizer.getStateHash, SkipCallsVisualizer.getStateHash, h1, h2]
  simp only [Bool.not_true, Bool.false_eq_true, if_false]
  constructor
  · intro h
    exact joinComma_natDecimal_inj _ _ (congrArg String.data h)
  · intro h
    rw [h]

/-- Witness for claim C5 at two concrete active visualizers. -/
theorem skipcalls_getStateHash_characterization_witness :
    skipDemoActive.getStateHash = skipDemoOther.getStateHash ↔
      skippedIndices skipDemoActive = skippedIndices skipDemoOther :=
  skipcalls_getStateHash_characterization skipDemoActive skipDemoOther rfl rfl

end WTFReplay
